import Mathlib

/-!
Shallow embedding of `src/app.py` of RetailCatalogImporter: the account
access check, the inline paginated product fetch, the PLU resolution loop,
and the import orchestration double loop with its per-item error handling,
together with the temp-file lifecycle around the run.

Remote calls are modelled as oracle functions supplied through an
environment record; a raising Python call is an oracle returning
`Except.error msg`.
-/

set_option maxRecDepth 4000

/-- A remote product; only `id` and `plu` are consumed by the importer. -/
structure Product where
  id : String
  plu : String
deriving Repr, DecidableEq

/-- A Python exception as seen by `checkAccountAccess`: either a
`requests.exceptions.HTTPError` carrying a status code, or any other
exception carrying a message. -/
inductive PyExc where
  | httpError (status : Nat)
  | otherExc (msg : String)
deriving Repr, DecidableEq

/-- `checkAccountAccess` (src/app.py lines 15-26): calls `getAccountName`
(whose outcome is the argument); on success returns `(True, name)`; on an
`HTTPError` with status 403 returns `(False, None)`, any other `HTTPError`
is re-raised; any other exception also returns `(False, None)`. -/
def checkAccountAccess (accountNameResult : Except PyExc String) :
    Except PyExc (Bool × Option String) :=
  match accountNameResult with
  | .ok name => .ok (true, some name)
  | .error (.httpError s) =>
      if s = 403 then .ok (false, none) else .error (.httpError s)
  | .error (.otherExc _) => .ok (false, none)

/-! ## Paginated product fetch (src/app.py lines 166-199) -/

/-- The `_meta` object of a page response; each field is absent (`none`)
or a number. -/
structure Meta where
  page : Option Nat
  total_pages : Option Nat
  total : Option Nat
deriving Repr, DecidableEq

/-- A page response: either not a JSON dictionary, or a dictionary with an
optional `_items` list and an optional `_meta` object. -/
inductive PageResp where
  | notDict
  | dict (items : Option (List Product)) (meta : Option Meta)
deriving Repr, DecidableEq

/-- `items = resp.get("_items") if isinstance(resp, dict) else []`, with a
missing `_items` behaving like the empty list under `if not items`. -/
def respItemsL : PageResp → List Product
  | .notDict => []
  | .dict its _ => its.getD []

/-- `meta = resp.get("_meta", {}) if isinstance(resp, dict) else {}`. -/
def respMeta : PageResp → Meta
  | .notDict => ⟨none, none, none⟩
  | .dict _ m => m.getD ⟨none, none, none⟩

/-- Python truthiness of `meta.get(...)`: `None` and `0` are falsy. -/
def optTruthy : Option Nat → Bool
  | none => false
  | some n => n != 0

/-- `total_pages and current_page and current_page >= total_pages`. -/
def metaStop (m : Meta) : Bool :=
  optTruthy m.total_pages && optTruthy m.page &&
    decide (m.total_pages.getD 0 ≤ m.page.getD 0)

/-- `page_size = 500` (src/app.py line 168). -/
def pageSize : Nat := 500

/-- The break condition evaluated after a non-empty page is appended:
`(total_pages and current_page and current_page >= total_pages) or
len(items) < page_size`. -/
def stopAfter (resp : PageResp) : Bool :=
  metaStop (respMeta resp) || decide ((respItemsL resp).length < pageSize)

/-- The JSON payload of one page request (src/app.py lines 173-178). -/
structure ReqPayload where
  page : Nat
  max_results : Nat
  visible : Bool
  sort : String
deriving Repr, DecidableEq

def mkPayload (page : Nat) : ReqPayload :=
  { page := page, max_results := pageSize, visible := true, sort := "-_id" }

/-- The `while True` pagination loop, fuel-indexed so that divergence is
expressible: `none` means the loop made `fuel` requests without breaking.
Returns the accumulated products and the payloads of the requests issued. -/
def fetchLoop (fetch : Nat → PageResp) :
    Nat → Nat → List Product → List ReqPayload →
    Option (List Product × List ReqPayload)
  | 0, _, _, _ => none
  | fuel + 1, page, acc, reqs =>
    let resp := fetch page
    let reqs' := reqs ++ [mkPayload page]
    let its := respItemsL resp
    if its.isEmpty then some (acc, reqs')
    else
      let acc' := acc ++ its
      if stopAfter resp then some (acc', reqs')
      else fetchLoop fetch fuel (page + 1) acc' reqs'

/-- The inline `getAllProducts` loop of `main`: pages start at 1, the
accumulator and request list start empty. -/
def getAllProducts (fetch : Nat → PageResp) (fuel : Nat) :
    Option (List Product × List ReqPayload) :=
  fetchLoop fetch fuel 1 [] []

/-- The loop breaks during the iteration for page `p` exactly when the
page is empty/missing/not-a-dict, or the meta stop fires, or the page is
short. -/
def stopAt (fetch : Nat → PageResp) (p : Nat) : Bool :=
  (respItemsL (fetch p)).isEmpty || stopAfter (fetch p)

/-! ## PLU resolution (src/app.py lines 257-265) -/

/-- Modelled from the spec: `findProductIdbyPlu` is imported from
`csvToCatalog`, which is not part of this snapshot; the spec describes it
as a linear scan matching the exact PLU string, returning the first
matching product's id or the none-found sentinel. -/
def findProductIdbyPlu (products : List Product) (plu : String) :
    Option String :=
  (products.find? (fun p => p.plu == plu)).map (fun p => p.id)

/-- The `for plu in plu_list` loop of `main`: append `product_id` to
`subProducts` when it is truthy (`if product_id:` — `None` and the empty
string are falsy). -/
def buildSubProducts (products : List Product) (pluList : List String) :
    List String :=
  pluList.foldl (fun acc plu =>
    match findProductIdbyPlu products plu with
    | some pid => if pid ≠ "" then acc ++ [pid] else acc
    | none => acc) []

/-- A PLU resolution that survives the `if product_id:` truthiness check. -/
def resolvePlu (products : List Product) (plu : String) : Option String :=
  match findProductIdbyPlu products plu with
  | some pid => if pid ≠ "" then some pid else none
  | none => none

/-! ## Import orchestration (src/app.py lines 113-313) -/

/-- One CSV row. -/
structure Row where
  category1 : String
  category2 : String
  plu : String
deriving Repr, DecidableEq

/-- The nested ordered mapping Category1 → Category2 → PLU list. -/
def Structure := List (String × List (String × List String))

/-- The `results` accumulator (src/app.py lines 212-217). -/
structure ImportResult where
  categories_created : Nat
  subcategories_created : Nat
  products_added : Nat
  errors : List String
deriving Repr, DecidableEq

def emptyResult : ImportResult :=
  { categories_created := 0, subcategories_created := 0,
    products_added := 0, errors := [] }

/-- Pointwise combination: add the counters, append the error lists. -/
def mergeR (r d : ImportResult) : ImportResult :=
  { categories_created := r.categories_created + d.categories_created,
    subcategories_created := r.subcategories_created + d.subcategories_created,
    products_added := r.products_added + d.products_added,
    errors := r.errors ++ d.errors }

/-- The remote calls `main` makes, as oracles; an oracle returning
`Except.error msg` models the Python call raising with message `msg`. -/
structure Env where
  readCsv : Except String (List Row)
  createStructure : List Row → Except String Structure
  createCatalog : Except String String
  getAllProducts : Except String (List Product)
  createCategories : String → String → Except String String
  createSubCategories : String → String → String → Except String String
  getEtag : String → Except String String
  patchSubCategory : String → List String → String → Except String Unit

/-- The remote calls issued while processing the double loop. -/
inductive CallEv where
  | createCategoryCall (menuId name : String)
  | createSubCall (menuId catId name : String)
  | getEtagCall (subId : String)
  | patchCall (subId : String) (productIds : List String) (etag : String)
deriving Repr, DecidableEq

/-- `f"Error in category '{category1_name}': {str(e)}"`. -/
def catErr (name msg : String) : String :=
  "Error in category '" ++ name ++ "': " ++ msg

/-- `f"Error in subcategory '{category2_name}': {str(e)}"`. -/
def subErr (name msg : String) : String :=
  "Error in subcategory '" ++ name ++ "': " ++ msg

/-- `f"Failed to get etag for subcategory '{category2_name}': {str(etag_error)}"`. -/
def etagErr (name msg : String) : String :=
  "Failed to get etag for subcategory '" ++ name ++ "': " ++ msg

/-- The body of the inner `for category2_name, plu_list` loop
(src/app.py lines 236-280), including its `try/except` and the nested
etag `try/except`; returns the updated accumulator and the calls made. -/
def processSub (env : Env) (prods : List Product) (menuId catId : String)
    (r : ImportResult) (name : String) (plus : List String) :
    ImportResult × List CallEv :=
  match env.createSubCategories menuId catId name with
  | .error e =>
      ({ r with errors := r.errors ++ [subErr name e] },
       [.createSubCall menuId catId name])
  | .ok subId =>
    let r1 := { r with subcategories_created := r.subcategories_created + 1 }
    match env.getEtag subId with
    | .error e =>
        ({ r1 with errors := r1.errors ++ [etagErr name e] },
         [.createSubCall menuId catId name, .getEtagCall subId])
    | .ok etag =>
      let subProducts := buildSubProducts prods plus
      if subProducts.isEmpty then
        (r1, [.createSubCall menuId catId name, .getEtagCall subId])
      else
        match env.patchSubCategory subId subProducts etag with
        | .ok _ =>
            ({ r1 with products_added := r1.products_added + subProducts.length },
             [.createSubCall menuId catId name, .getEtagCall subId,
              .patchCall subId subProducts etag])
        | .error e =>
            ({ r1 with errors := r1.errors ++ [subErr name e] },
             [.createSubCall menuId catId name, .getEtagCall subId,
              .patchCall subId subProducts etag])

/-- The inner loop over the subcategories of one category. -/
def processSubs (env : Env) (prods : List Product) (menuId catId : String) :
    ImportResult → List (String × List String) → ImportResult × List CallEv
  | r, [] => (r, [])
  | r, (name, plus) :: rest =>
    let p := processSub env prods menuId catId r name plus
    let q := processSubs env prods menuId catId p.1 rest
    (q.1, p.2 ++ q.2)

/-- The body of the outer `for category1_name, category2_dict` loop
(src/app.py lines 222-284) with its `try/except`: in the embedding the
only operation in the category scope that can raise outside the inner
handler is `createCategories`. -/
def processCategory (env : Env) (prods : List Product) (menuId : String)
    (r : ImportResult) (name : String) (subs : List (String × List String)) :
    ImportResult × List CallEv :=
  match env.createCategories menuId name with
  | .error e =>
      ({ r with errors := r.errors ++ [catErr name e] },
       [.createCategoryCall menuId name])
  | .ok catId =>
    let r1 := { r with categories_created := r.categories_created + 1 }
    let q := processSubs env prods menuId catId r1 subs
    (q.1, .createCategoryCall menuId name :: q.2)

/-- The outer loop over all categories of the structure. -/
def processCats (env : Env) (prods : List Product) (menuId : String) :
    ImportResult → Structure → ImportResult × List CallEv
  | r, [] => (r, [])
  | r, (name, subs) :: rest =>
    let p := processCategory env prods menuId r name subs
    let q := processCats env prods menuId p.1 rest
    (q.1, p.2 ++ q.2)

/-- The `try` body of the run (src/app.py lines 137-305): read the CSV,
build the structure, create the catalog, fetch the products — a failure
in any of these aborts, surfacing the failure together with the partial
accumulator (no counter has been touched yet at these points) — then run
the double loop, which never aborts. -/
def importRun (env : Env) :
    Except (String × ImportResult) (ImportResult × List CallEv) :=
  match env.readCsv with
  | .error e => .error (e, emptyResult)
  | .ok rows =>
    match env.createStructure rows with
    | .error e => .error (e, emptyResult)
    | .ok st =>
      match env.createCatalog with
      | .error e => .error (e, emptyResult)
      | .ok menuId =>
        match env.getAllProducts with
        | .error e => .error (e, emptyResult)
        | .ok prods => .ok (processCats env prods menuId emptyResult st)

/-- The `finally` clause (src/app.py lines 310-313): delete the temp file
when it still exists. -/
def finallyCleanup (tmpExists : Bool) : Bool :=
  if tmpExists then false else tmpExists

/-- The whole button handler (src/app.py lines 113-313): the temp file is
created before the `try` (so it exists), the body never deletes it, and
the `finally` clause runs on every outcome; the second component is
whether the temp file still exists when the run ends. -/
def fullRun (env : Env) :
    Except (String × ImportResult) (ImportResult × List CallEv) × Bool :=
  (importRun env, finallyCleanup true)

/-! ## Concrete fixtures used to evaluate the embedding -/

/-- A product used by the fake paginated sources. -/
def prodA : Product := { id := "pid", plu := "PLU-A" }

/-- A product with PLU `P1` used by the orchestration fixtures. -/
def prodP1 : Product := { id := "id1", plu := "P1" }

/-- A fake paginated source returning pages of sizes [500, 500, 120]. -/
def fetch3 : Nat → PageResp := fun p =>
  if p = 1 then
    .dict (some (List.replicate 500 prodA))
          (some { page := some 1, total_pages := some 3, total := some 1120 })
  else if p = 2 then
    .dict (some (List.replicate 500 prodA))
          (some { page := some 2, total_pages := some 3, total := some 1120 })
  else
    .dict (some (List.replicate 120 prodA))
          (some { page := some 3, total_pages := some 3, total := some 1120 })

/-- A fake source on which every page is a full dictionary page of exactly
`pageSize` items with no meta object at all. -/
def fetchDiv : Nat → PageResp := fun _ =>
  .dict (some (List.replicate 500 prodA)) none

/-- An environment in which every remote call succeeds. -/
def okEnv : Env :=
  { readCsv := .ok []
  , createStructure := fun _ => .ok ([] : Structure)
  , createCatalog := .ok "menu1"
  , getAllProducts := .ok [prodP1]
  , createCategories := fun _ _ => .ok "cat1"
  , createSubCategories := fun _ _ _ => .ok "sub1"
  , getEtag := fun _ => .ok "etag1"
  , patchSubCategory := fun _ _ _ => .ok () }

def envCsvFail : Env := { okEnv with readCsv := .error "bad csv" }

def envCatFail : Env :=
  { okEnv with createCategories := fun _ _ => .error "cat boom" }

def envSubFail : Env :=
  { okEnv with createSubCategories := fun _ _ _ => .error "sub boom" }

def envEtagFail : Env :=
  { okEnv with getEtag := fun _ => .error "etag boom" }

/-! ## Helper lemmas -/

theorem strAppend_assoc (a b c : String) : (a ++ b) ++ c = a ++ (b ++ c) := by
  rcases a with ⟨a⟩; rcases b with ⟨b⟩; rcases c with ⟨c⟩
  show String.mk ((a ++ b) ++ c) = String.mk (a ++ (b ++ c))
  rw [List.append_assoc]

theorem mergeR_empty_right (r : ImportResult) : mergeR r emptyResult = r := by
  cases r; simp [mergeR, emptyResult]

theorem mergeR_empty_left (d : ImportResult) : mergeR emptyResult d = d := by
  cases d; simp [mergeR, emptyResult]

theorem mergeR_assoc (a b c : ImportResult) :
    mergeR (mergeR a b) c = mergeR a (mergeR b c) := by
  simp [mergeR, Nat.add_assoc, List.append_assoc]

/-- The subcategory step only adds to the accumulator: its effect on any
starting accumulator is the merge of the effect on the empty one. -/
theorem processSub_shift (env : Env) (prods : List Product)
    (menuId catId : String) (r : ImportResult) (name : String)
    (plus : List String) :
    processSub env prods menuId catId r name plus
      = (mergeR r (processSub env prods menuId catId emptyResult name plus).1,
         (processSub env prods menuId catId emptyResult name plus).2) := by
  cases h1 : env.createSubCategories menuId catId name with
  | error e => simp [processSub, h1, mergeR, emptyResult]
  | ok subId =>
    cases h2 : env.getEtag subId with
    | error e => simp [processSub, h1, h2, mergeR, emptyResult]
    | ok etag =>
      cases h3 : (buildSubProducts prods plus).isEmpty with
      | true => simp [processSub, h1, h2, h3, mergeR, emptyResult]
      | false =>
        cases h4 : env.patchSubCategory subId (buildSubProducts prods plus) etag with
        | ok u => simp [processSub, h1, h2, h3, h4, mergeR, emptyResult]
        | error e => simp [processSub, h1, h2, h3, h4, mergeR, emptyResult]

/-- Same shift property for the whole inner loop. -/
theorem processSubs_shift (env : Env) (prods : List Product)
    (menuId catId : String) (l : List (String × List String)) :
    ∀ r : ImportResult,
      processSubs env prods menuId catId r l
        = (mergeR r (processSubs env prods menuId catId emptyResult l).1,
           (processSubs env prods menuId catId emptyResult l).2) := by
  induction l with
  | nil => intro r; simp [processSubs, mergeR_empty_right]
  | cons hd tl ih =>
    intro r
    obtain ⟨name, plus⟩ := hd
    simp only [processSubs]
    rw [processSub_shift env prods menuId catId r name plus,
        processSub_shift env prods menuId catId emptyResult name plus,
        mergeR_empty_left]
    rw [ih (mergeR r (processSub env prods menuId catId emptyResult name plus).1),
        ih ((processSub env prods menuId catId emptyResult name plus).1)]
    simp [mergeR_assoc]

/-- Same shift property for the category step. -/
theorem processCategory_shift (env : Env) (prods : List Product)
    (menuId : String) (r : ImportResult) (name : String)
    (subs : List (String × List String)) :
    processCategory env prods menuId r name subs
      = (mergeR r (processCategory env prods menuId emptyResult name subs).1,
         (processCategory env prods menuId emptyResult name subs).2) := by
  cases h1 : env.createCategories menuId name with
  | error e => simp [processCategory, h1, mergeR, emptyResult]
  | ok catId =>
    simp only [processCategory, h1]
    rw [processSubs_shift env prods menuId catId subs
          { r with categories_created := r.categories_created + 1 },
        processSubs_shift env prods menuId catId subs
          { emptyResult with categories_created := emptyResult.categories_created + 1 }]
    cases r
    simp [mergeR, emptyResult, Nat.add_assoc, Nat.add_comm]
    omega

/-- Same shift property for the whole outer loop: counters and errors
already accumulated are carried through unchanged and only appended to. -/
theorem processCats_shift (env : Env) (prods : List Product)
    (menuId : String) (cats : Structure) :
    ∀ r : ImportResult,
      processCats env prods menuId r cats
        = (mergeR r (processCats env prods menuId emptyResult cats).1,
           (processCats env prods menuId emptyResult cats).2) := by
  induction cats with
  | nil => intro r; simp [processCats, mergeR_empty_right]
  | cons hd tl ih =>
    intro r
    obtain ⟨name, subs⟩ := hd
    simp only [processCats]
    rw [processCategory_shift env prods menuId r name subs,
        processCategory_shift env prods menuId emptyResult name subs,
        mergeR_empty_left]
    rw [ih (mergeR r (processCategory env prods menuId emptyResult name subs).1),
        ih ((processCategory env prods menuId emptyResult name subs).1)]
    simp [mergeR_assoc]

/-- The PLU loop, started from any accumulator, appends exactly the
truthy resolutions in order. -/
theorem buildSubProducts_go (prods : List Product) (l : List String) :
    ∀ acc : List String,
      l.foldl (fun acc plu =>
        match findProductIdbyPlu prods plu with
        | some pid => if pid ≠ "" then acc ++ [pid] else acc
        | none => acc) acc
        = acc ++ l.filterMap (resolvePlu prods) := by
  induction l with
  | nil => intro acc; simp
  | cons hd tl ih =>
    intro acc
    rw [List.foldl_cons, ih, List.filterMap_cons]
    cases h : findProductIdbyPlu prods hd with
    | none => simp [resolvePlu, h]
    | some pid =>
      by_cases hp : pid = ""
      · simp [resolvePlu, h, hp]
      · simp [resolvePlu, h, hp, List.append_assoc]

/-- The attach list is the ordered list of truthy PLU resolutions. -/
theorem buildSubProducts_eq_filterMap (prods : List Product)
    (l : List String) :
    buildSubProducts prods l = l.filterMap (resolvePlu prods) := by
  unfold buildSubProducts
  rw [buildSubProducts_go]
  simp

/-- Each occurrence of a key that `f` maps to `some b` contributes one
occurrence of `b` to the filterMap image. -/
theorem count_le_count_filterMap (f : String → Option String)
    (a b : String) (hab : f a = some b) :
    ∀ l : List String, l.count a ≤ (l.filterMap f).count b := by
  intro l
  induction l with
  | nil => simp
  | cons hd tl ih =>
    rw [List.filterMap_cons]
    by_cases hh : hd = a
    · subst hh
      rw [hab]
      simp [List.count_cons]
      omega
    · have hne : ¬a = hd := fun h => hh h.symm
      cases hf : f hd with
      | none =>
        simp [List.count_cons, hne]
        omega
      | some c =>
        by_cases hbc : b = c
        · subst hbc
          simp [List.count_cons, hne]
          omega
        · simp [List.count_cons, hne, hbc]
          omega

/-- Characterization of a completed pagination loop started at any page:
some positive number `n` of requests was issued, for consecutive pages,
page payloads were appended in order, every page's items were appended,
the loop stopped at the last requested page and at no earlier one. -/
theorem fetchLoop_characterization (fetch : Nat → PageResp) :
    ∀ (fuel page : Nat) (acc : List Product) (reqs0 : List ReqPayload)
      (prods : List Product) (reqs : List ReqPayload),
      fetchLoop fetch fuel page acc reqs0 = some (prods, reqs) →
      ∃ n, 1 ≤ n ∧ n ≤ fuel
        ∧ reqs = reqs0 ++ (List.range' page n).map mkPayload
        ∧ prods = acc
            ++ ((List.range' page n).map (fun p => respItemsL (fetch p))).flatten
        ∧ stopAt fetch (page + n - 1) = true
        ∧ (∀ p, page ≤ p → p + 1 < page + n → stopAt fetch p = false) := by
  intro fuel
  induction fuel with
  | zero => intro page acc reqs0 prods reqs h; simp [fetchLoop] at h
  | succ fuel ih =>
    intro page acc reqs0 prods reqs h
    rw [fetchLoop] at h
    by_cases h1 : (respItemsL (fetch page)).isEmpty
    · simp only [h1, if_true] at h
      obtain ⟨hprods, hreqs⟩ : acc = prods ∧ reqs0 ++ [mkPayload page] = reqs := by
        simpa using h
      refine ⟨1, le_refl 1, by omega, ?_, ?_, ?_, ?_⟩
      · rw [← hreqs, List.range'_one]; rfl
      · rw [← hprods, List.range'_one]
        simp [List.isEmpty_iff.mp h1]
      · simpa [stopAt] using Or.inl h1
      · intro p hp1 hp2; omega
    · simp only [h1, if_false] at h
      by_cases h2 : stopAfter (fetch page)
      · simp only [h2, if_true] at h
        obtain ⟨hprods, hreqs⟩ :
            acc ++ respItemsL (fetch page) = prods
              ∧ reqs0 ++ [mkPayload page] = reqs := by
          simpa using h
        refine ⟨1, le_refl 1, by omega, ?_, ?_, ?_, ?_⟩
        · rw [← hreqs, List.range'_one]; rfl
        · rw [← hprods, List.range'_one]; simp
        · simpa [stopAt] using Or.inr h2
        · intro p hp1 hp2; omega
      · simp only [h2, if_false] at h
        obtain ⟨n, hn1, hnf, hreqs, hprods, hstop, hearlier⟩ :=
          ih (page + 1) (acc ++ respItemsL (fetch page))
            (reqs0 ++ [mkPayload page]) prods reqs h
        refine ⟨n + 1, by omega, by omega, ?_, ?_, ?_, ?_⟩
        · rw [hreqs, List.range'_succ]
          simp [List.append_assoc]
        · rw [hprods, List.range'_succ]
          simp [List.append_assoc]
        · have : page + (n + 1) - 1 = page + 1 + n - 1 := by omega
          rw [this]; exact hstop
        · intro p hp1 hp2
          rcases Nat.eq_or_lt_of_le hp1 with hp | hp
          · rw [← hp]
            simp [stopAt, h1, h2]
          · exact hearlier p (by omega) (by omega)

/-- If some page within the fuel bound satisfies the break condition, the
loop completes. -/
theorem fetchLoop_total (fetch : Nat → PageResp) :
    ∀ (fuel page : Nat) (acc : List Product) (reqs0 : List ReqPayload),
      (∃ k, k < fuel ∧ stopAt fetch (page + k) = true) →
      ∃ out, fetchLoop fetch fuel page acc reqs0 = some out := by
  intro fuel
  induction fuel with
  | zero =>
    intro page acc reqs0 ⟨k, hk, _⟩
    omega
  | succ fuel ih =>
    intro page acc reqs0 ⟨k, hk, hstop⟩
    by_cases h1 : (respItemsL (fetch page)).isEmpty
    · exact ⟨(acc, reqs0 ++ [mkPayload page]), by rw [fetchLoop]; simp [h1]⟩
    · by_cases h2 : stopAfter (fetch page)
      · exact ⟨(acc ++ respItemsL (fetch page), reqs0 ++ [mkPayload page]),
          by rw [fetchLoop]; simp [h1, h2]⟩
      · have hk0 : k ≠ 0 := by
          intro hk0
          subst hk0
          simp [stopAt, h1, h2] at hstop
        obtain ⟨out, hout⟩ :=
          ih (page + 1) (acc ++ respItemsL (fetch page))
            (reqs0 ++ [mkPayload page])
            ⟨k - 1, by omega, by rw [show page + 1 + (k - 1) = page + k by omega]; exact hstop⟩
        exact ⟨out, by rw [fetchLoop]; simp [h1, h2]; exact hout⟩

/-- If no page from the starting one on ever satisfies the break
condition, the loop exhausts any amount of fuel. -/
theorem fetchLoop_diverges (fetch : Nat → PageResp)
    (hyp : ∀ p, 1 ≤ p → stopAt fetch p = false) :
    ∀ (fuel page : Nat) (acc : List Product) (reqs0 : List ReqPayload),
      1 ≤ page → fetchLoop fetch fuel page acc reqs0 = none := by
  intro fuel
  induction fuel with
  | zero => intro page acc reqs0 hp; rfl
  | succ fuel ih =>
    intro page acc reqs0 hp
    have hs := hyp page hp
    simp only [stopAt, Bool.or_eq_false_iff] at hs
    rw [fetchLoop]
    simp [hs.1, hs.2]
    exact ih (page + 1) _ _ (by omega)

/-- Running the loop on the [500, 500, 120] fake source: three requests,
all 1120 items accumulated. -/
theorem fetch3_run :
    getAllProducts fetch3 3
      = some ((([] ++ List.replicate 500 prodA) ++ List.replicate 500 prodA)
                ++ List.replicate 120 prodA,
              (([] ++ [mkPayload 1]) ++ [mkPayload 2]) ++ [mkPayload 3]) := by
  rfl

/-! ## Claim theorems -/

/-- C5 counterexample: the claim says every non-403 failure of the
account-name lookup is propagated as a different error, distinguishable
from the access-denied outcome; but a non-HTTP exception (for example a
connection failure) produces exactly the same `(False, None)` outcome as
a 403, and is not propagated. -/
theorem C5_counterexample :
    checkAccountAccess (Except.error (PyExc.otherExc "connection aborted"))
        = Except.ok (false, none)
      ∧ checkAccountAccess (Except.error (PyExc.httpError 403))
        = Except.ok (false, none) :=
  ⟨rfl, rfl⟩

/-- C5 (amended): a 403 HTTP error from the account-name lookup yields
the access-denied outcome `(False, None)`; an HTTP error with any other
status is re-raised (propagates); but any non-HTTP exception is also
mapped to `(False, None)`, indistinguishable from the 403 case. -/
theorem C5_accountAccess_amended (res : Except PyExc String) :
    (∀ s, res = .error (.httpError s) → s ≠ 403 →
        checkAccountAccess res = .error (.httpError s))
    ∧ (res = .error (.httpError 403) →
        checkAccountAccess res = .ok (false, none))
    ∧ (∀ m, res = .error (.otherExc m) →
        checkAccountAccess res = .ok (false, none))
    ∧ (∀ nm, res = .ok nm → checkAccountAccess res = .ok (true, some nm)) := by
  refine ⟨?_, ?_, ?_, ?_⟩
  · intro s h hs
    subst h
    simp [checkAccountAccess, hs]
  · intro h; subst h; rfl
  · intro m h; subst h; rfl
  · intro nm h; subst h; rfl

/-- C5 witness: a 500 HTTP error is re-raised. -/
theorem C5_amended_witness :
    checkAccountAccess (Except.error (PyExc.httpError 500))
      = Except.error (PyExc.httpError 500) :=
  (C5_accountAccess_amended (Except.error (PyExc.httpError 500))).1 500 rfl
    (by decide)

/-- C9: the temporary CSV file is created before the `try` block and the
`finally` clause removes it whatever the body's outcome, so for every run
that starts the import the file is gone when the run ends. -/
theorem C9_tempFileDeleted (env : Env) :
    (fullRun env).2 = false
    ∧ (fullRun env).1 = importRun env
    ∧ ∀ b, finallyCleanup b = false := by
  refine ⟨rfl, rfl, ?_⟩
  intro b
  cases b <;> rfl

/-- C2: a failure in CSV loading, structure building, catalog creation or
the product fetch aborts the run at once: the result is a single failure
carrying the accumulated partial result, which at each of these points is
still the zero-count, empty-error accumulator, and no category processing
happens. -/
theorem C2_setupFailuresAbort (env : Env) :
    (∀ e, env.readCsv = .error e →
        importRun env = .error (e, emptyResult))
    ∧ (∀ rows e, env.readCsv = .ok rows →
        env.createStructure rows = .error e →
        importRun env = .error (e, emptyResult))
    ∧ (∀ rows st e, env.readCsv = .ok rows →
        env.createStructure rows = .ok st →
        env.createCatalog = .error e →
        importRun env = .error (e, emptyResult))
    ∧ (∀ rows st menuId e, env.readCsv = .ok rows →
        env.createStructure rows = .ok st →
        env.createCatalog = .ok menuId →
        env.getAllProducts = .error e →
        importRun env = .error (e, emptyResult)) := by
  refine ⟨?_, ?_, ?_, ?_⟩
  · intro e h; simp [importRun, h]
  · intro rows e h1 h2; simp [importRun, h1, h2]
  · intro rows st e h1 h2 h3; simp [importRun, h1, h2, h3]
  · intro rows st menuId e h1 h2 h3 h4; simp [importRun, h1, h2, h3, h4]

/-- C2 witness: a CSV read failure aborts the fixture run with the empty
partial result. -/
theorem C2_witness :
    importRun envCsvFail = .error ("bad csv", emptyResult) :=
  (C2_setupFailuresAbort envCsvFail).1 "bad csv" rfl

/-- C1: failures in the double loop are caught at the smallest enclosing
scope. A category-creation failure appends exactly one error containing
the Category1 name, changes no counter, and issues no further call for
that subtree; a subcategory-creation failure appends exactly one error
containing the Category2 name and changes no counter; the outer loop is a
total fold, every accumulator already built is carried through unchanged
(only appended to), and the next sibling is processed from the updated
accumulator. -/
theorem C1_loopFailuresCaughtPerItem :
    (∀ (env : Env) (prods : List Product) (menuId : String)
        (r : ImportResult) (name : String)
        (subs : List (String × List String)) (e : String),
        env.createCategories menuId name = .error e →
        processCategory env prods menuId r name subs
          = ({ r with errors := r.errors ++ [catErr name e] },
             [CallEv.createCategoryCall menuId name])
          ∧ ∃ pre post, catErr name e = pre ++ name ++ post)
    ∧ (∀ (env : Env) (prods : List Product) (menuId catId : String)
        (r : ImportResult) (name : String) (plus : List String) (e : String),
        env.createSubCategories menuId catId name = .error e →
        processSub env prods menuId catId r name plus
          = ({ r with errors := r.errors ++ [subErr name e] },
             [CallEv.createSubCall menuId catId name])
          ∧ ∃ pre post, subErr name e = pre ++ name ++ post)
    ∧ (∀ (env : Env) (prods : List Product) (menuId : String)
        (r : ImportResult) (cats : Structure),
        processCats env prods menuId r cats
          = (mergeR r (processCats env prods menuId emptyResult cats).1,
             (processCats env prods menuId emptyResult cats).2))
    ∧ (∀ (env : Env) (prods : List Product) (menuId : String)
        (r : ImportResult) (name : String)
        (subs : List (String × List String)) (rest : Structure),
        processCats env prods menuId r ((name, subs) :: rest)
          = ((processCats env prods menuId
                (processCategory env prods menuId r name subs).1 rest).1,
             (processCategory env prods menuId r name subs).2
               ++ (processCats env prods menuId
                     (processCategory env prods menuId r name subs).1 rest).2)) := by
  refine ⟨?_, ?_, ?_, ?_⟩
  · intro env prods menuId r name subs e h
    refine ⟨by simp [processCategory, h], "Error in category '", "': " ++ e, ?_⟩
    exact strAppend_assoc ("Error in category '" ++ name) "': " e
  · intro env prods menuId catId r name plus e h
    refine ⟨by simp [processSub, h], "Error in subcategory '", "': " ++ e, ?_⟩
    exact strAppend_assoc ("Error in subcategory '" ++ name) "': " e
  · intro env prods menuId r cats
    exact processCats_shift env prods menuId cats r
  · intro env prods menuId r name subs rest
    rfl

/-- C1 witness: a failing category creation on the fixture environment. -/
theorem C1_witness :
    processCategory envCatFail [] "menu1" emptyResult "Food" []
        = ({ emptyResult with
              errors := emptyResult.errors ++ [catErr "Food" "cat boom"] },
           [CallEv.createCategoryCall "menu1" "Food"])
      ∧ ∃ pre post, catErr "Food" "cat boom" = pre ++ "Food" ++ post :=
  C1_loopFailuresCaughtPerItem.1 envCatFail [] "menu1" emptyResult "Food" []
    "cat boom" rfl

/-- C3: when subcategory creation succeeds and the etag fetch fails, the
subcategories-created counter still increments by one, exactly one error
mentioning the subcategory name is appended, no patch call is made, the
products-added counter is unchanged, and the inner loop continues with
the next subcategory from the updated accumulator. -/
theorem C3_etagFailure (env : Env) (prods : List Product)
    (menuId catId : String) (r : ImportResult) (name : String)
    (plus : List String) (subId e : String)
    (hSub : env.createSubCategories menuId catId name = .ok subId)
    (hEtag : env.getEtag subId = .error e) :
    processSub env prods menuId catId r name plus
      = ({ r with
            subcategories_created := r.subcategories_created + 1,
            errors := r.errors ++ [etagErr name e] },
         [CallEv.createSubCall menuId catId name, CallEv.getEtagCall subId])
    ∧ (∃ pre post, etagErr name e = pre ++ name ++ post)
    ∧ (∀ sid ps et, CallEv.patchCall sid ps et
          ∉ (processSub env prods menuId catId r name plus).2)
    ∧ (∀ rest, (processSubs env prods menuId catId r ((name, plus) :: rest)).1
        = (processSubs env prods menuId catId
            (processSub env prods menuId catId r name plus).1 rest).1) := by
  have hmain : processSub env prods menuId catId r name plus
      = ({ r with
            subcategories_created := r.subcategories_created + 1,
            errors := r.errors ++ [etagErr name e] },
         [CallEv.createSubCall menuId catId name, CallEv.getEtagCall subId]) := by
    simp [processSub, hSub, hEtag]
  refine ⟨hmain, ?_, ?_, ?_⟩
  · exact ⟨"Failed to get etag for subcategory '", "': " ++ e,
      strAppend_assoc ("Failed to get etag for subcategory '" ++ name) "': " e⟩
  · intro sid ps et
    rw [hmain]
    simp
  · intro rest
    rfl

/-- C3 witness: an etag failure for subcategory "Drinks" on the fixture
environment. -/
theorem C3_witness :
    processSub envEtagFail [] "menu1" "cat1" emptyResult "Drinks" []
      = ({ emptyResult with
            subcategories_created := emptyResult.subcategories_created + 1,
            errors := emptyResult.errors ++ [etagErr "Drinks" "etag boom"] },
         [CallEv.createSubCall "menu1" "cat1" "Drinks",
          CallEv.getEtagCall "sub1"]) :=
  (C3_etagFailure envEtagFail [] "menu1" "cat1" emptyResult "Drinks" []
    "sub1" "etag boom" rfl rfl).1

/-- C6: for a subcategory with an etag, the patch call is issued exactly
when at least one PLU resolved; on a successful patch the products-added
counter grows by the length of the resolved list; on a failing patch one
error for the subcategory is recorded, the products-added counter is
unchanged, and the step still returns (the run continues). -/
theorem C6_patchBehavior (env : Env) (prods : List Product)
    (menuId catId : String) (r : ImportResult) (name : String)
    (plus : List String) (subId etag : String)
    (hSub : env.createSubCategories menuId catId name = .ok subId)
    (hEtag : env.getEtag subId = .ok etag) :
    ((∃ sid ps et, CallEv.patchCall sid ps et
          ∈ (processSub env prods menuId catId r name plus).2)
        ↔ buildSubProducts prods plus ≠ [])
    ∧ (buildSubProducts prods plus ≠ []
        ↔ ∃ plu ∈ plus, (resolvePlu prods plu).isSome)
    ∧ (env.patchSubCategory subId (buildSubProducts prods plus) etag = .ok () →
        buildSubProducts prods plus ≠ [] →
        processSub env prods menuId catId r name plus
          = ({ r with
                subcategories_created := r.subcategories_created + 1,
                products_added :=
                  r.products_added + (buildSubProducts prods plus).length },
             [CallEv.createSubCall menuId catId name, CallEv.getEtagCall subId,
              CallEv.patchCall subId (buildSubProducts prods plus) etag]))
    ∧ (∀ e, env.patchSubCategory subId (buildSubProducts prods plus) etag
          = .error e →
        buildSubProducts prods plus ≠ [] →
        processSub env prods menuId catId r name plus
          = ({ r with
                subcategories_created := r.subcategories_created + 1,
                errors := r.errors ++ [subErr name e] },
             [CallEv.createSubCall menuId catId name, CallEv.getEtagCall subId,
              CallEv.patchCall subId (buildSubProducts prods plus) etag])) := by
  refine ⟨?_, ?_, ?_, ?_⟩
  · cases h3 : (buildSubProducts prods plus).isEmpty with
    | true =>
      have hnil := List.isEmpty_iff.mp h3
      simp only [processSub, hSub, hEtag, h3]
      simp [hnil]
    | false =>
      have hne : buildSubProducts prods plus ≠ [] := by
        intro hnil
        rw [hnil] at h3
        simp at h3
      cases h4 : env.patchSubCategory subId (buildSubProducts prods plus) etag with
      | ok u =>
        simp only [processSub, hSub, hEtag, h3, h4]
        simp [hne]
      | error e =>
        simp only [processSub, hSub, hEtag, h3, h4]
        simp [hne]
  · rw [Ne, buildSubProducts_eq_filterMap, List.filterMap_eq_nil_iff]
    push_neg
    simp [Option.ne_none_iff_isSome]
  · intro hPatch hne
    have h3 : (buildSubProducts prods plus).isEmpty = false := by
      cases h : (buildSubProducts prods plus).isEmpty with
      | true => exact absurd (List.isEmpty_iff.mp h) hne
      | false => rfl
    simp [processSub, hSub, hEtag, h3, hPatch]
  · intro e hPatch hne
    have h3 : (buildSubProducts prods plus).isEmpty = false := by
      cases h : (buildSubProducts prods plus).isEmpty with
      | true => exact absurd (List.isEmpty_iff.mp h) hne
      | false => rfl
    simp [processSub, hSub, hEtag, h3, hPatch]

/-- C6 witness: a successful patch on the fixture environment adds the
resolved products. -/
theorem C6_witness :
    processSub okEnv [prodP1] "menu1" "cat1" emptyResult "Drinks" ["P1"]
      = ({ emptyResult with
            subcategories_created := emptyResult.subcategories_created + 1,
            products_added := emptyResult.products_added
              + (buildSubProducts [prodP1] ["P1"]).length },
         [CallEv.createSubCall "menu1" "cat1" "Drinks",
          CallEv.getEtagCall "sub1",
          CallEv.patchCall "sub1" (buildSubProducts [prodP1] ["P1"]) "etag1"]) :=
  (C6_patchBehavior okEnv [prodP1] "menu1" "cat1" emptyResult "Drinks" ["P1"]
    "sub1" "etag1" rfl rfl).2.2.1 rfl (by decide)

/-- C7: the attach list is exactly the product ids of the truthy PLU
resolutions, in PLU-list order (unresolved PLUs are dropped), and PLU
resolution never appends to the error list: when the remote calls of a
subcategory step succeed (or there is nothing to patch), the errors are
unchanged no matter how many PLUs failed to resolve. -/
theorem C7_attachListResolution :
    (∀ (prods : List Product) (plus : List String),
        buildSubProducts prods plus = plus.filterMap (resolvePlu prods))
    ∧ (∀ (env : Env) (prods : List Product) (menuId catId : String)
        (r : ImportResult) (name : String) (plus : List String)
        (subId etag : String),
        env.createSubCategories menuId catId name = .ok subId →
        env.getEtag subId = .ok etag →
        (buildSubProducts prods plus = []
          ∨ env.patchSubCategory subId (buildSubProducts prods plus) etag
              = .ok ()) →
        (processSub env prods menuId catId r name plus).1.errors
          = r.errors) := by
  refine ⟨buildSubProducts_eq_filterMap, ?_⟩
  intro env prods menuId catId r name plus subId etag hSub hEtag hOk
  cases h3 : (buildSubProducts prods plus).isEmpty with
  | true => simp [processSub, hSub, hEtag, h3]
  | false =>
    rcases hOk with hnil | hPatch
    · rw [hnil] at h3
      simp at h3
    · simp [processSub, hSub, hEtag, h3, hPatch]

/-- C7 witness: one resolvable and one unresolvable PLU, no error
recorded. -/
theorem C7_witness :
    (processSub okEnv [prodP1] "menu1" "cat1" emptyResult "Drinks"
        ["P1", "NOPE"]).1.errors = emptyResult.errors :=
  C7_attachListResolution.2 okEnv [prodP1] "menu1" "cat1" emptyResult
    "Drinks" ["P1", "NOPE"] "sub1" "etag1" rfl rfl (Or.inr rfl)

/-- C8: duplicate PLUs are preserved: a PLU occurring k times that
resolves to a product id puts that id into the attach list at least k
times (exactly k of them coming from those occurrences), the attach list
passed to the patch call is that list, and a successful patch adds its
full length — including all k occurrences — to the products-added
counter. -/
theorem C8_duplicatePlusPreserved (prods : List Product)
    (plus : List String) (plu pid : String)
    (hres : resolvePlu prods plu = some pid) :
    plus.count plu ≤ (buildSubProducts prods plus).count pid
    ∧ plus.count plu ≤ (buildSubProducts prods plus).length
    ∧ ∀ (env : Env) (menuId catId : String) (r : ImportResult)
        (name : String) (subId etag : String),
        env.createSubCategories menuId catId name = .ok subId →
        env.getEtag subId = .ok etag →
        env.patchSubCategory subId (buildSubProducts prods plus) etag
          = .ok () →
        buildSubProducts prods plus ≠ [] →
        (processSub env prods menuId catId r name plus).1.products_added
            = r.products_added + (buildSubProducts prods plus).length
          ∧ CallEv.patchCall subId (buildSubProducts prods plus) etag
              ∈ (processSub env prods menuId catId r name plus).2 := by
  have hcount : plus.count plu ≤ (buildSubProducts prods plus).count pid := by
    rw [buildSubProducts_eq_filterMap]
    exact count_le_count_filterMap (resolvePlu prods) plu pid hres plus
  refine ⟨hcount, le_trans hcount (List.count_le_length _ _), ?_⟩
  intro env menuId catId r name subId etag hSub hEtag hPatch hne
  have h3 : (buildSubProducts prods plus).isEmpty = false := by
    cases h : (buildSubProducts prods plus).isEmpty with
    | true => exact absurd (List.isEmpty_iff.mp h) hne
    | false => rfl
  constructor
  · simp [processSub, hSub, hEtag, h3, hPatch]
  · simp [processSub, hSub, hEtag, h3, hPatch]

/-- C8 witness: the PLU "P1" listed twice resolves twice into the attach
list. -/
theorem C8_witness :
    (["P1", "P1"] : List String).count "P1"
      ≤ (buildSubProducts [prodP1] ["P1", "P1"]).count "id1" :=
  (C8_duplicatePlusPreserved [prodP1] ["P1", "P1"] "P1" "id1" rfl).1

/-- C4: any completed run of the pagination loop requested consecutive
pages starting at 1, each with fixed page size 500, accumulated every
page's items in order, and broke exactly at the first page satisfying
the stop condition (empty page, meta stop, or short page); on the fake
source with pages [500, 500, 120] it returns 1120 items in 3 requests. -/
theorem C4_pagination :
    (∀ (fetch : Nat → PageResp) (fuel : Nat) (prods : List Product)
        (reqs : List ReqPayload),
        getAllProducts fetch fuel = some (prods, reqs) →
        reqs.map ReqPayload.page = List.range' 1 reqs.length
        ∧ (∀ rq ∈ reqs, rq.max_results = pageSize)
        ∧ prods = ((List.range' 1 reqs.length).map
            (fun p => respItemsL (fetch p))).flatten
        ∧ 1 ≤ reqs.length
        ∧ stopAt fetch reqs.length = true
        ∧ (∀ p, 1 ≤ p → p < reqs.length → stopAt fetch p = false))
    ∧ (∃ prods reqs, getAllProducts fetch3 3 = some (prods, reqs)
        ∧ prods.length = 1120 ∧ reqs.map ReqPayload.page = [1, 2, 3]
        ∧ reqs.length = 3) := by
  constructor
  · intro fetch fuel prods reqs h
    obtain ⟨n, hn1, hnf, hreqs, hprods, hstop, hearlier⟩ :=
      fetchLoop_characterization fetch fuel 1 [] [] prods reqs h
    have hlen : reqs.length = n := by
      rw [hreqs]
      simp [List.length_range']
    rw [hlen]
    refine ⟨?_, ?_, ?_, hn1, ?_, ?_⟩
    · rw [hreqs]
      simp only [List.nil_append, List.map_map]
      have hcomp : (ReqPayload.page ∘ mkPayload) = id := rfl
      rw [hcomp, List.map_id]
    · intro rq hrq
      rw [hreqs] at hrq
      simp only [List.nil_append, List.mem_map] at hrq
      obtain ⟨p, hp, rfl⟩ := hrq
      rfl
    · rw [hprods]
      simp
    · rw [show 1 + n - 1 = n from by omega] at hstop
      exact hstop
    · intro p hp1 hp2
      exact hearlier p hp1 (by omega)
  · refine ⟨_, _, fetch3_run, ?_, ?_, ?_⟩
    · simp
    · rfl
    · rfl

/-- C4 witness: the [500, 500, 120] run requested pages 1, 2, 3 in
ascending order. -/
theorem C4_witness :
    ((([] ++ [mkPayload 1]) ++ [mkPayload 2]) ++ [mkPayload 3]).map
        ReqPayload.page
      = List.range' 1
          ((([] ++ [mkPayload 1]) ++ [mkPayload 2]) ++ [mkPayload 3]).length :=
  (C4_pagination.1 fetch3 3 _ _ fetch3_run).1

/-- C10: the pagination loop terminates whenever some page response is
not a dictionary, or has an empty or missing items list, or carries
usable meta with current page at least total pages, or is short; and it
never terminates on a source whose every page is a dictionary of exactly
500 items with no usable page/total-pages metadata. -/
theorem C10_loopTermination :
    (∀ (fetch : Nat → PageResp) (n : Nat), 1 ≤ n →
        (fetch n = .notDict ∨ respItemsL (fetch n) = []
          ∨ metaStop (respMeta (fetch n)) = true
          ∨ (respItemsL (fetch n)).length < pageSize) →
        ∀ fuel, n ≤ fuel →
        ∃ out, getAllProducts fetch fuel = some out)
    ∧ (∀ fetch : Nat → PageResp,
        (∀ n, 1 ≤ n → ∃ its m, fetch n = .dict (some its) m
          ∧ its.length = pageSize
          ∧ (optTruthy (respMeta (fetch n)).total_pages
              && optTruthy (respMeta (fetch n)).page) = false) →
        ∀ fuel, getAllProducts fetch fuel = none) := by
  constructor
  · intro fetch n hn hcond fuel hfuel
    have hstop : stopAt fetch n = true := by
      rcases hcond with h | h | h | h
      · simp [stopAt, respItemsL, h]
      · simp [stopAt, h]
      · simp [stopAt, stopAfter, h]
      · simp [stopAt, stopAfter, h]
    exact fetchLoop_total fetch fuel 1 [] []
      ⟨n - 1, by omega, by rw [show 1 + (n - 1) = n from by omega]; exact hstop⟩
  · intro fetch hcond fuel
    rw [getAllProducts]
    refine fetchLoop_diverges fetch ?_ fuel 1 [] [] (by omega)
    intro p hp
    obtain ⟨its, m, hfetch, hlen, hmeta⟩ := hcond p hp
    have hitems : respItemsL (fetch p) = its := by rw [hfetch]; rfl
    have h1 : (respItemsL (fetch p)).isEmpty = false := by
      rw [hitems]
      cases its with
      | nil => simp [pageSize] at hlen
      | cons a l => rfl
    have h2 : stopAfter (fetch p) = false := by
      simp only [stopAfter, Bool.or_eq_false_iff]
      constructor
      · unfold metaStop
        rw [hmeta]
        simp
      · rw [hitems, hlen]
        simp
    simp [stopAt, h1, h2]

/-- C10 witness: a source of endless full 500-item pages with no meta is
never exited, here after 7 fueled iterations. -/
theorem C10_witness :
    getAllProducts fetchDiv 7 = none :=
  C10_loopTermination.2 fetchDiv
    (fun n hn =>
      ⟨List.replicate 500 prodA, none, rfl, by simp [pageSize], rfl⟩) 7
